import Mathlib

/-
  Shallow embedding of src/example.tsx (android-webrtc-example).

  The component keeps React state (roomId, joined, status, localStream,
  remoteStream) and two refs (socketRef, pcRef).  Socket handlers are
  registered exactly once, inside the first call to connectSocket, and the
  closures they hold capture the render-time values of roomId (and the
  sibling closures ensurePeer / endCall from that same render).  We model
  that captured environment as a HandlerEnv stored alongside the socket.

  Signaling events and user actions are merged into one event type; each
  event is handled run-to-completion (the code's handlers are sequential
  reactions on the socket's event queue).  Outbound signaling messages are
  collected as a list of Out values.
-/

namespace WebrtcApp

/-- An ICE candidate payload; `wellFormed` models whether the media engine
accepts it (the engine is an external collaborator; its acceptance is
opaque to the component). -/
structure Candidate where
  payload : String
  wellFormed : Bool
deriving DecidableEq, Repr

/-- The peer-connection resource held in pcRef: its remote/local session
descriptions and the candidates the engine has successfully applied. -/
structure PC where
  remoteDesc : Option String
  localDesc : Option String
  candidates : List Candidate
deriving DecidableEq, Repr

/-- A freshly constructed RTCPeerConnection (no descriptions, no applied
candidates), as built at src/example.tsx line 85. -/
def freshPC : PC := ⟨none, none, []⟩

/-- The closure environment captured by the socket handlers registered in
connectSocket (src/example.tsx lines 110-156): the roomId state value of
the render in which connectSocket first ran. -/
structure HandlerEnv where
  roomId : String
deriving DecidableEq, Repr

/-- The component's state: React state plus the two refs.  `socket = some
env` means socketRef holds a live socket whose handlers captured `env`;
`localStream`/`remoteStream` record stream presence. -/
structure AppState where
  roomId : String
  joined : Bool
  status : String
  localStream : Bool
  remoteStream : Bool
  socket : Option HandlerEnv
  pc : Option PC
deriving DecidableEq, Repr

/-- Initial component state (useState initialisers at src/example.tsx
lines 26-33). -/
def initState : AppState :=
  { roomId := "test-room", joined := false, status := "idle"
  , localStream := false, remoteStream := false
  , socket := none, pc := none }

/-- Inbound events: signaling messages delivered by the socket, plus the
user actions (Join / Leave button, editing the room id) and completion of
local-stream acquisition. -/
inductive Ev
  | connected
  | joinedMsg (count : Nat)
  | peerJoined
  | ready
  | offerMsg (sdp : String)
  | answerMsg (sdp : String)
  | iceMsg (c : Candidate)
  | peerLeft
  | pressJoin
  | pressLeave
  | setRoom (r : String)
  | gotLocalStream
deriving DecidableEq, Repr

/-- Outbound signaling messages emitted to the relay. -/
inductive Out
  | join (room : String)
  | offer (room : String) (sdp : String)
  | answer (room : String) (sdp : String)
  | leave (room : String)
deriving DecidableEq, Repr

/-- Opaque blob produced by pc.createOffer (engine collaborator). -/
def localOffer : String := "local-offer"

/-- Opaque blob produced by pc.createAnswer (engine collaborator). -/
def localAnswer : String := "local-answer"

/-- ensurePeer (src/example.tsx lines 83-108): return the existing peer
connection if pcRef is non-null, otherwise a fresh one (which the caller
stores back into pcRef). -/
def ensurePeer : Option PC → PC
  | some pc => pc
  | none => freshPC

/-- Modelled from the spec: the media-transport engine's
`addIceCandidate(c) -> fails with InvalidCandidate` operation (spec
section 6), which also fails when no remote description has been applied
for the current attempt (spec sections 3 and 9: applying a candidate
before a remote description exists throws, and the reference behavior
"can throw/drop under real-world races").  `none` models the rejection
the handler catches. -/
def addIceCandidate (pc : PC) (c : Candidate) : Option PC :=
  if pc.remoteDesc.isNone then none
  else if c.wellFormed then some { pc with candidates := pc.candidates ++ [c] }
  else none

/-- pc.setRemoteDescription(sdp): record the remote description. -/
def setRemoteDescription (pc : PC) (sdp : String) : PC :=
  { pc with remoteDesc := some sdp }

/-- endCall (src/example.tsx lines 165-177), as the closure of a render
whose roomId was `r`: emit "leave" when a socket exists and `r` is truthy
(non-empty), stop/close/null the peer connection, clear the remote
stream, clear `joined`, set status "idle". -/
def endCall (r : String) (st : AppState) : AppState × List Out :=
  let out := if st.socket.isSome && !(r == "") then [Out.leave r] else []
  ({ st with pc := none, remoteStream := false, joined := false, status := "idle" }, out)

/-- connectSocket (src/example.tsx lines 110-156): when socketRef is null,
create the socket and register the handlers, whose closures capture the
current render's roomId; otherwise do nothing. -/
def connectSocket (st : AppState) : AppState :=
  match st.socket with
  | some _ => st
  | none => { st with socket := some ⟨st.roomId⟩ }

/-- joinRoom (src/example.tsx lines 158-163): no-op without a local
stream; otherwise connect the socket, emit "join" with the current
roomId, and set `joined`. -/
def joinRoom (st : AppState) : AppState × List Out :=
  if st.localStream then
    let st1 := connectSocket st
    ({ st1 with joined := true }, [Out.join st.roomId])
  else (st, [])

/-- The socket handlers registered in connectSocket (src/example.tsx
lines 115-154), dispatching one inbound signaling event against the
captured environment `env`.  The ice-candidate handler's try/catch is the
`none` branch of `addIceCandidate`; the peer-left handler sets status and
then invokes the captured endCall closure. -/
def handleSignal (env : HandlerEnv) (st : AppState) : Ev → AppState × List Out
  | .connected => ({ st with status := "socket connected" }, [])
  | .joinedMsg n =>
      ({ st with status := "joined room (" ++ toString n ++ ")" }, [])
  | .peerJoined => ({ st with status := "peer joined, waiting for ready" }, [])
  | .ready =>
      let pc := ensurePeer st.pc
      let pc1 := { pc with localDesc := some localOffer }
      ({ st with pc := some pc1, status := "sent offer" },
       [Out.offer env.roomId localOffer])
  | .offerMsg sdp =>
      let pc := ensurePeer st.pc
      let pc1 := setRemoteDescription pc sdp
      let pc2 := { pc1 with localDesc := some localAnswer }
      ({ st with pc := some pc2, status := "answered offer" },
       [Out.answer env.roomId localAnswer])
  | .answerMsg sdp =>
      let pc := ensurePeer st.pc
      let pc1 := setRemoteDescription pc sdp
      ({ st with pc := some pc1, status := "connected (answer set)" }, [])
  | .iceMsg c =>
      let pc := ensurePeer st.pc
      match addIceCandidate pc c with
      | some pc1 => ({ st with pc := some pc1 }, [])
      | none => ({ st with pc := some pc }, [])
  | .peerLeft =>
      endCall env.roomId { st with status := "peer left" }
  | _ => (st, [])

/-- One reaction step of the component: user actions run the current
render's closures (current roomId); signaling events are delivered only
when a socket exists and run the registered handlers with their captured
environment. -/
def step (st : AppState) : Ev → AppState × List Out
  | .pressJoin => joinRoom st
  | .pressLeave => endCall st.roomId st
  | .setRoom r => ({ st with roomId := r }, [])
  | .gotLocalStream => ({ st with localStream := true }, [])
  | e =>
      match st.socket with
      | none => (st, [])
      | some env => handleSignal env st e

/-- Run a sequence of events from a state, collecting all emitted
signaling messages in order. -/
def runTrace (st : AppState) : List Ev → AppState × List Out
  | [] => (st, [])
  | e :: es =>
      let p := step st e
      let q := runTrace p.1 es
      (q.1, p.2 ++ q.2)

/-- Whether an outbound message is an Offer. -/
def isOffer : Out → Bool
  | .offer _ _ => true
  | _ => false

/-- Whether an outbound message is an Answer. -/
def isAnswer : Out → Bool
  | .answer _ _ => true
  | _ => false

/-- Number of Offer messages in an output list. -/
def countOffers (os : List Out) : Nat := (os.filter isOffer).length

/-- Number of Answer messages in an output list. -/
def countAnswers (os : List Out) : Nat := (os.filter isAnswer).length

/-- A well-formed candidate used in concrete traces. -/
def cand0 : Candidate := ⟨"cand-0", true⟩

/-- A malformed candidate (rejected by the engine) used in concrete
traces. -/
def badCand : Candidate := ⟨"bad-cand", false⟩

/-- State after acquiring the local stream and joining: socket live with
captured room "test-room". -/
def stJoined : AppState := (runTrace initState [.gotLocalStream, .pressJoin]).1

/-- State after the offerer flow completes (ready then answer): the
Connected state, with a remote description applied. -/
def stConnected : AppState :=
  (runTrace initState [.gotLocalStream, .pressJoin, .ready, .answerMsg "peer-answer"]).1

/-- The peer connection held at stConnected. -/
def pcConnected : PC := ⟨some "peer-answer", some localOffer, []⟩

/-- State after an offerer attempt (join, ready) was torn down by
endCall: the baseline of the next attempt, with the socket (and its
registered handlers) still live. -/
def stAfterTeardown : AppState :=
  (runTrace initState [.gotLocalStream, .pressJoin, .ready, .pressLeave]).1

/-- Trace for claim C8: join with room "test-room", leave, change the
room id to "r2", join again, then receive ready. -/
def trace8 : List Ev :=
  [.gotLocalStream, .pressJoin, .pressLeave, .setRoom "r2", .pressJoin, .ready]

/-- Claim C1: an ice-candidate that arrives before the remote description
is applied should be buffered and applied exactly once right after the
remote description is applied.  In the code the handler applies it
immediately; the engine rejects it (no remote description), the catch
swallows the error, and the candidate is gone: after the offer later
applies the remote description, the applied-candidate list is still
empty, so the early candidate was lost, not buffered. -/
theorem c1_early_candidate_lost :
    (runTrace initState
      [.gotLocalStream, .pressJoin, .iceMsg cand0, .offerMsg "peer-offer"]).1.pc
      = some ⟨some "peer-offer", some localAnswer, []⟩ := by decide

/-- Claim C2: after endCall completes and a new attempt begins, a stale
ice-candidate event from the superseded attempt should have no observable
effect.  In the code the socket handlers stay registered and hold no
generation tag: the stale event's handler calls ensurePeer, which builds
a brand-new peer connection, flipping pcRef from null to a fresh resource
in the new attempt — an observable effect. -/
theorem c2_stale_candidate_affects_next_attempt :
    stAfterTeardown.pc = none ∧
    (step stAfterTeardown (.iceMsg cand0)).1.pc = some freshPC := by decide

/-- Claim C3, counterexample: two ready events delivered within the same
attempt (no teardown in between) make the code emit two Offer messages,
refuting "at most one Offer per attempt even if ready is delivered more
than once". -/
theorem c3_counterexample :
    countOffers (runTrace initState [.gotLocalStream, .pressJoin, .ready, .ready]).2 = 2 := by
  decide

/-- Claim C3, amended: the code emits exactly one Offer for each delivery
of ready and exactly one Answer for each delivery of offer, with no
per-attempt deduplication; at most one Offer and one Answer per attempt
therefore holds only when the relay delivers ready and offer at most
once within the attempt. -/
theorem c3_one_offer_per_ready (st : AppState) (env : HandlerEnv)
    (hs : st.socket = some env) :
    (step st .ready).2 = [Out.offer env.roomId localOffer] ∧
    ∀ sdp, (step st (.offerMsg sdp)).2 = [Out.answer env.roomId localAnswer] := by
  refine ⟨?_, fun sdp => ?_⟩ <;> simp [step, hs, handleSignal]

/-- Witness for c3_one_offer_per_ready at the joined state. -/
theorem c3_one_offer_per_ready_witness :
    (step stJoined .ready).2 = [Out.offer "test-room" localOffer] ∧
    ∀ sdp, (step stJoined (.offerMsg sdp)).2 = [Out.answer "test-room" localAnswer] :=
  c3_one_offer_per_ready stJoined ⟨"test-room"⟩ (by decide)

/-- Claim C4, counterexample: receiving peer-left in the joined state
tears the connection down AND emits a Leave message (endCall sends
"leave" whenever the socket exists), refuting "a teardown triggered by
receiving PeerLeft ... does not emit a Leave message". -/
theorem c4_counterexample :
    (step stJoined .peerLeft).2 = [Out.leave "test-room"] ∧
    (step stJoined .peerLeft).1.pc = none := by decide

/-- Claim C4, amended: on every teardown, a Leave message is emitted
whenever a socket connection exists and the (closure-captured) room id is
non-empty — for a locally initiated leave and equally for a teardown
triggered by receiving PeerLeft, which sends Leave with the handlers'
captured room id. -/
theorem c4_leave_always_sent (st : AppState) (env : HandlerEnv)
    (hs : st.socket = some env) (hr : env.roomId ≠ "") :
    (step st .peerLeft).2 = [Out.leave env.roomId] ∧
    (st.roomId ≠ "" → (step st .pressLeave).2 = [Out.leave st.roomId]) := by
  constructor
  · simp [step, hs, handleSignal, endCall, hr]
  · intro hr2
    simp [step, hs, endCall, hr2]

/-- Witness for c4_leave_always_sent at the joined state. -/
theorem c4_leave_always_sent_witness :
    (step stJoined .peerLeft).2 = [Out.leave (HandlerEnv.mk "test-room").roomId] ∧
    (stJoined.roomId ≠ "" →
      (step stJoined .pressLeave).2 = [Out.leave stJoined.roomId]) :=
  c4_leave_always_sent stJoined ⟨"test-room"⟩ (by decide) (by decide)

/-- Claim C5: endCall (leave) is idempotent from any reachable state: a
second immediate leave changes nothing, and the state after leave is the
Idle baseline — no peer connection, remote stream cleared, status
"idle", joined flag cleared.  (endCall is a total function of the state,
so no error can occur.) -/
theorem c5_leave_idempotent (st : AppState) :
    (step (step st .pressLeave).1 .pressLeave).1 = (step st .pressLeave).1 ∧
    (step st .pressLeave).1.pc = none ∧
    (step st .pressLeave).1.remoteStream = false ∧
    (step st .pressLeave).1.status = "idle" ∧
    (step st .pressLeave).1.joined = false :=
  ⟨rfl, rfl, rfl, rfl, rfl⟩

/-- Claim C6: a malformed candidate delivered while a peer connection
exists (e.g. after Connected) is swallowed by the handler's try/catch:
the state is completely unchanged (the resource is not destroyed, no
teardown, not even a status change) and nothing is emitted. -/
theorem c6_malformed_candidate_swallowed (st : AppState) (env : HandlerEnv)
    (pc : PC) (c : Candidate) (hs : st.socket = some env) (hp : st.pc = some pc)
    (hc : c.wellFormed = false) :
    step st (.iceMsg c) = (st, []) := by
  have h1 : addIceCandidate pc c = none := by
    simp [addIceCandidate, hc]
  simp only [step, hs, handleSignal, hp, ensurePeer, h1]
  rw [← hp, ← hs]

/-- Witness for c6_malformed_candidate_swallowed at the Connected
state. -/
theorem c6_malformed_candidate_swallowed_witness :
    step stConnected (.iceMsg badCand) = (stConnected, []) :=
  c6_malformed_candidate_swallowed stConnected ⟨"test-room"⟩ pcConnected badCand
    (by decide) (by decide) (by decide)

/-- Claim C7: ensurePeer is idempotent — when a peer connection already
exists it is returned unchanged and no second resource is built (pcRef
is a single slot, `Option PC` in the model, so at most one non-closed
resource exists at any time). -/
theorem c7_ensurePeer_idempotent (pc : PC) : ensurePeer (some pc) = pc := rfl

/-- Claim C8, counterexample: join as "test-room", leave, change the room
id to "r2", join again, receive ready.  The second join emits join "r2",
but the still-registered handlers captured "test-room" at first
registration, so the new attempt's Offer is emitted for "test-room"
while the current room id is "r2" — a residual captured room identifier
from the earlier membership influences the new attempt. -/
theorem c8_counterexample :
    (runTrace initState trace8).1.roomId = "r2" ∧
    (runTrace initState trace8).2 =
      [Out.join "test-room", Out.leave "test-room", Out.join "r2",
       Out.offer "test-room" localOffer] := by decide

/-- Claim C8, amended: join() after leave() does leave no stale
peer-connection reference and no queued candidates (there is no queue),
but the signaling handlers registered when the socket was first created
survive and keep the room identifier captured at that time: the
re-joined attempt emits join with the new room id while its Offer is
emitted with the captured (old) room id. -/
theorem c8_join_after_leave (st : AppState) (env : HandlerEnv) (r : String)
    (hs : st.socket = some env) (hl : st.localStream = true) :
    (step (step (step st .pressLeave).1 (.setRoom r)).1 .pressJoin).1.pc = none ∧
    (step (step (step st .pressLeave).1 (.setRoom r)).1 .pressJoin).1.socket = some env ∧
    (step (step (step st .pressLeave).1 (.setRoom r)).1 .pressJoin).2 = [Out.join r] ∧
    (step (step (step (step st .pressLeave).1 (.setRoom r)).1 .pressJoin).1 .ready).2
      = [Out.offer env.roomId localOffer] := by
  refine ⟨?_, ?_, ?_, ?_⟩ <;>
    simp [step, endCall, joinRoom, connectSocket, handleSignal, hs, hl]

/-- Witness for c8_join_after_leave, re-joining as "r2" from the joined
state. -/
theorem c8_join_after_leave_witness :
    (step (step (step stJoined .pressLeave).1 (.setRoom "r2")).1 .pressJoin).1.pc = none ∧
    (step (step (step stJoined .pressLeave).1 (.setRoom "r2")).1 .pressJoin).1.socket
      = some (HandlerEnv.mk "test-room") ∧
    (step (step (step stJoined .pressLeave).1 (.setRoom "r2")).1 .pressJoin).2
      = [Out.join "r2"] ∧
    (step (step (step (step stJoined .pressLeave).1 (.setRoom "r2")).1 .pressJoin).1
        .ready).2 = [Out.offer (HandlerEnv.mk "test-room").roomId localOffer] :=
  c8_join_after_leave stJoined ⟨"test-room"⟩ "r2" (by decide) (by decide)

/-- Claim C9: receiving joined with a count payload sets the status to
exactly "joined room (<count>)" with the count interpolated, and emits
nothing. -/
theorem c9_joined_status (st : AppState) (env : HandlerEnv) (n : Nat)
    (hs : st.socket = some env) :
    (step st (.joinedMsg n)).1.status = "joined room (" ++ toString n ++ ")" ∧
    (step st (.joinedMsg n)).2 = [] := by
  simp [step, hs, handleSignal]

/-- Witness for c9_joined_status: count 1 yields "joined room (1)". -/
theorem c9_joined_status_witness :
    (step stJoined (.joinedMsg 1)).1.status = "joined room (1)" ∧
    (step stJoined (.joinedMsg 1)).2 = [] :=
  have h := c9_joined_status stJoined ⟨"test-room"⟩ 1 (by decide)
  ⟨h.1.trans (by decide), h.2⟩

/-- Claim C10: joinRoom invoked while no local stream has been acquired
is a complete no-op: state unchanged (no socket opened, joined flag and
status untouched) and no message emitted. -/
theorem c10_join_without_stream_noop (st : AppState) (h : st.localStream = false) :
    step st .pressJoin = (st, []) := by
  simp [step, joinRoom, h]

/-- Witness for c10_join_without_stream_noop at the initial state. -/
theorem c10_join_without_stream_noop_witness :
    step initState .pressJoin = (initState, []) :=
  c10_join_without_stream_noop initState rfl

end WebrtcApp
